import Mathlib

/-!
Verification of the BluePadel match-lifecycle engine
(`base-ts-meta-memory/src`): a shallow embedding of the mock flows
(`replacementFlow.ts`, `cancellationFlow.ts`, `confirmationFlow.ts`),
the data helpers (`data/players.ts`, `data/matches.ts`,
`data/playerMatchStatus.ts`, `data/settings.ts`) and the periodic
confirmation trigger (`triggers/confirmationTimeoutTrigger.ts`).

Modelling conventions:
* Numeric skill levels are decimal numbers with at most two decimal
  places in the source (`6.53`, tolerances `1.0` / `1.5`); they are
  represented exactly as integer hundredths (`6.53` ↦ `653`,
  tolerance `1.0` ↦ `100`).  The scaling is an order- and
  arithmetic-exact embedding of every comparison the source performs
  on levels (absolute differences against tolerances, ascending
  sorts).
* ISO-8601 timestamp strings are represented by their epoch-millisecond
  value as an integer.  All comparisons the source performs on such
  strings (lexicographic `<`, `localeCompare`) agree with the numeric
  order for same-format ISO strings, and `Date.getTime()` arithmetic is
  exactly millisecond arithmetic.
* Human-readable `mensaje` text fields are not modelled; result records
  keep only the structured fields (`success`, `accion`, ids, flags, …).
* The mock flows have no real side effects except the in-place mutations
  performed by `confirmationTimeoutTrigger.ts` (notification records set
  to `timeout`, matches promoted to `confirmed`).  Those mutations are
  modelled by explicit state passing: functions take the `PLAYERS` /
  `MATCHES` collections as arguments and return updated copies.
  `console.log`-simulated WhatsApp sends are counted by instrumentation
  fields (`mensajesEnviados`) so that "no notifications" is statable.
-/

namespace BluePadel

/-- Type `MatchStatus` from `data/matches.ts`. -/
inductive MatchStatus where
  | waiting
  | notified
  | confirmed
  | canceled
  | completed
deriving DecidableEq, Repr

/-- Type `PlayerMatchState` from `data/playerMatchStatus.ts`. -/
inductive PlayerMatchState where
  | pending
  | confirmed
  | rejected
  | timeout
  | replaced
deriving DecidableEq, Repr

/-- Structure `Player` from `data/players.ts` (the `subnivel` band is kept as a raw
string; it carries no logic). -/
structure Player where
  id : String
  nombre : String
  categoria : Int
  subnivel : String
  nivelNumerico : Int
  telefono : String
  disponible : Bool
deriving DecidableEq, Repr

/-- Structure `PlayerNotification` from `data/playerMatchStatus.ts`; timestamps are
epoch milliseconds, `respondioEn` is optional as in the source. -/
structure PlayerNotification where
  playerId : String
  estado : PlayerMatchState
  enviadoEn : Int
  respondioEn : Option Int
  tiempoLimite : Int
deriving DecidableEq, Repr

/-- Structure `Match` from `data/matches.ts`.  The optional `notificaciones` array is
modelled as a plain list, an absent field being the empty list (the only
consumer, `procesarPartido`, treats `undefined` and `[]` identically). -/
structure Match where
  id : String
  jugadores : List String
  confirmados : List String
  horario : Int
  canchaId : String
  estado : MatchStatus
  categoria : Int
  nivelPromedio : Int
  creadoEn : Int
  motivoCancelacion : Option String
  notificaciones : List PlayerNotification
deriving DecidableEq, Repr

/-! ### Configuration (`data/settings.ts`) -/

/-- Setting `NIVEL_CONFIG.toleranciaDefault` (1.0, in level hundredths). -/
def toleranciaDefault : Int := 100

/-- Setting `NIVEL_CONFIG.toleranciaExtendida` (1.5, in level hundredths). -/
def toleranciaExtendida : Int := 150

/-- Setting `MATCHING_RULES.jugadoresMinimosParaCrear`. -/
def jugadoresMinimosParaCrear : Int := 1

/-- Setting `MATCHING_RULES.jugadoresParaCerrar`. -/
def jugadoresParaCerrar : Nat := 4

/-- Setting `MATCHING_RULES.maxIntentosReemplazo`. -/
def maxIntentosReemplazo : Nat := 3

/-- Setting `MATCHING_RULES.balancearParejas`. -/
def balancearParejas : Bool := true

/-- Setting `MATCHING_RULES.notificarCancelacion`. -/
def notificarCancelacion : Bool := true

/-- Setting `TIEMPOS_CONFIG.minutosParaConfirmar`. -/
def minutosParaConfirmar : Int := 60

/-- Setting `TIEMPOS_CONFIG.horasUltimoMomento`. -/
def horasUltimoMomento : ℚ := 2

/-! ### Data helpers (`data/players.ts`, `data/matches.ts`) -/

/-- Helper `getPlayerById` from `data/players.ts`. -/
def getPlayerById (players : List Player) (id : String) : Option Player :=
  players.find? (fun p => p.id == id)

/-- Helper `getPlayerByPhone` from `data/players.ts`. -/
def getPlayerByPhone (players : List Player) (telefono : String) : Option Player :=
  players.find? (fun p => p.telefono == telefono)

/-- Helper `getMatchById` from `data/matches.ts`. -/
def getMatchById (MATCHES : List Match) (id : String) : Option Match :=
  MATCHES.find? (fun m => m.id == id)

/-- Helper `getMatchesByPlayer` from `data/matches.ts`. -/
def getMatchesByPlayer (MATCHES : List Match) (playerId : String) : List Match :=
  MATCHES.filter (fun m => m.jugadores.contains playerId)

/-- Helper `getNotifiedMatches` from `data/matches.ts`. -/
def getNotifiedMatches (MATCHES : List Match) : List Match :=
  MATCHES.filter (fun m => decide (m.estado = MatchStatus.notified))

/-! ### Replacement flow (`flows/replacementFlow.ts`) -/

inductive ReplacementAccion where
  | encontrado
  | no_encontrado
  | partido_cancelado
  | error
deriving DecidableEq, Repr

/-- Result record `ReplacementResult` (the `mensaje` text is not modelled). -/
structure ReplacementResult where
  success : Bool
  matchId : String
  reemplazadoId : Option String
  reemplazanteId : Option String
  intento : Nat
  accion : ReplacementAccion
deriving DecidableEq, Repr

/-- Function `buscarCandidatos` from `flows/replacementFlow.ts`: filter the player
pool by (not already in the match, not the vacated player, available,
level within the chosen tolerance of the match average). -/
def buscarCandidatos (players : List Player) (partido : Match)
    (jugadorReemplazadoId : String) (usarToleranciaExtendida : Bool) : List Player :=
  let tolerancia := if usarToleranciaExtendida then toleranciaExtendida else toleranciaDefault
  players.filter (fun p =>
    let yaEnPartido := partido.jugadores.contains p.id
    let esReemplazado := p.id == jugadorReemplazadoId
    let disponible := p.disponible
    let nivelCompatible := decide (|p.nivelNumerico - partido.nivelPromedio| ≤ tolerancia)
    !yaEnPartido && !esReemplazado && disponible && nivelCompatible)

/-- Function `notificarCandidato` from `flows/replacementFlow.ts` (builds the
"found" result; the WhatsApp invitation text is not modelled). -/
def notificarCandidato (partido : Match) (candidato : Player)
    (jugadorReemplazadoId : String) (intento : Nat) : ReplacementResult :=
  { success := true
    matchId := partido.id
    reemplazadoId := some jugadorReemplazadoId
    reemplazanteId := some candidato.id
    intento := intento
    accion := ReplacementAccion.encontrado }

/-- Body of `simularBuscarReemplazo` after the `getMatchById` lookup
succeeded.  Factored out because `procesarPartido` calls
`simularBuscarReemplazo(partido.id, …)` while scanning, and that lookup
resolves to the very match object being processed. -/
def buscarReemplazoConPartido (players : List Player) (partido : Match)
    (jugadorReemplazadoId : String) (intento : Nat) : ReplacementResult :=
  if partido.estado = MatchStatus.canceled ∨ partido.estado = MatchStatus.completed then
    { success := false, matchId := partido.id, reemplazadoId := none,
      reemplazanteId := none, intento := intento, accion := ReplacementAccion.error }
  else if maxIntentosReemplazo < intento then
    { success := false, matchId := partido.id, reemplazadoId := some jugadorReemplazadoId,
      reemplazanteId := none, intento := intento, accion := ReplacementAccion.partido_cancelado }
  else
    match buscarCandidatos players partido jugadorReemplazadoId false with
    | [] =>
      if intento = 2 then
        match buscarCandidatos players partido jugadorReemplazadoId true with
        | [] =>
          { success := false, matchId := partido.id,
            reemplazadoId := some jugadorReemplazadoId, reemplazanteId := none,
            intento := intento, accion := ReplacementAccion.no_encontrado }
        | candidato :: _ => notificarCandidato partido candidato jugadorReemplazadoId intento
      else
        { success := false, matchId := partido.id,
          reemplazadoId := some jugadorReemplazadoId, reemplazanteId := none,
          intento := intento, accion := ReplacementAccion.no_encontrado }
    | candidato :: _ => notificarCandidato partido candidato jugadorReemplazadoId intento

/-- Function `simularBuscarReemplazo` from `flows/replacementFlow.ts`. -/
def simularBuscarReemplazo (players : List Player) (MATCHES : List Match)
    (matchId jugadorReemplazadoId : String) (intento : Nat) : ReplacementResult :=
  match getMatchById MATCHES matchId with
  | none =>
    { success := false, matchId := matchId, reemplazadoId := none,
      reemplazanteId := none, intento := intento, accion := ReplacementAccion.error }
  | some partido => buscarReemplazoConPartido players partido jugadorReemplazadoId intento

/-! ### Cancellation flow (`flows/cancellationFlow.ts`) -/

/-- Type `CancellationReason` from `flows/cancellationFlow.ts`. -/
inductive CancellationReason where
  | jugador_cancela
  | sin_confirmaciones
  | sin_jugadores_suficientes
  | cancha_no_disponible
  | partido_expirado
deriving DecidableEq, Repr

/-- The `tipoMotivo` field of `CancellationResult` has TypeScript type
`CancellationReason | "error"`. -/
inductive TipoMotivo where
  | motivo : CancellationReason → TipoMotivo
  | error
deriving DecidableEq, Repr

/-- Result record `CancellationResult` (the `mensaje` text is not modelled). -/
structure CancellationResult where
  success : Bool
  matchId : String
  playerId : Option String
  tipoMotivo : TipoMotivo
  esUltimoMomento : Bool
  requiereReemplazo : Bool
deriving DecidableEq, Repr

/-- The fixed mock "now" of `cancellationFlow.ts`
(`new Date("2025-02-11T16:30:00")`), as epoch milliseconds (taking the
timestamp as UTC; the absolute value plays no role in the theorems). -/
def ahoraMockCancelacion : Int := 1739291400000

/-- Function `verificarUltimoMomento` from `flows/cancellationFlow.ts`: the match
time is within the last-minute window iff the difference to "now",
converted from milliseconds to hours, lies in `[0, horasUltimoMomento]`.
The argument is the match's `horario` in epoch milliseconds (the source
parses the ISO string with `new Date(...)`; a parse failure returns
`false`, which cannot occur in the numeric model). -/
def verificarUltimoMomento (horarioPartido : Int) : Bool :=
  let diferenciaMs : Int := horarioPartido - ahoraMockCancelacion
  let diferenciaHoras : ℚ := (diferenciaMs : ℚ) / (1000 * 60 * 60)
  decide (0 ≤ diferenciaHoras ∧ diferenciaHoras ≤ horasUltimoMomento)

/-- Stable insertion sort used to model JavaScript's stable
`Array.prototype.sort(comparator)` (an element is inserted before the
first element it is `le`-related to, so elements comparing equal keep
their original relative order, as ES2019 guarantees). -/
def insertSortedBy (le : α → α → Bool) (x : α) : List α → List α
  | [] => [x]
  | y :: l => if le x y then x :: y :: l else y :: insertSortedBy le x l

/-- See `insertSortedBy`. -/
def sortBy (le : α → α → Bool) : List α → List α
  | [] => []
  | x :: l => insertSortedBy le x (sortBy le l)

/-- Function `simularCancelarJugador` from `flows/cancellationFlow.ts`.  The two
success branches (last-minute / normal) differ only in message text, so
they collapse into a single record here. -/
def simularCancelarJugador (players : List Player) (MATCHES : List Match)
    (telefonoJugador : String) (matchId : Option String) : CancellationResult :=
  match getPlayerByPhone players telefonoJugador with
  | none =>
    { success := false, matchId := matchId.getD "desconocido", playerId := none,
      tipoMotivo := TipoMotivo.error, esUltimoMomento := false, requiereReemplazo := false }
  | some jugador =>
    let partidoEncontrado : Option Match :=
      match matchId with
      | some mid => getMatchById MATCHES mid
      | none =>
        (sortBy (fun a b => decide (a.horario ≤ b.horario))
          ((getMatchesByPlayer MATCHES jugador.id).filter (fun m =>
            decide (m.estado = MatchStatus.waiting) ||
            decide (m.estado = MatchStatus.confirmed)))).head?
    match partidoEncontrado with
    | none =>
      { success := false, matchId := matchId.getD "ninguno", playerId := none,
        tipoMotivo := TipoMotivo.error, esUltimoMomento := false, requiereReemplazo := false }
    | some partido =>
      if partido.estado = MatchStatus.canceled ∨ partido.estado = MatchStatus.completed then
        { success := false, matchId := partido.id, playerId := some jugador.id,
          tipoMotivo := TipoMotivo.error, esUltimoMomento := false, requiereReemplazo := false }
      else
        let esUltimoMomento := verificarUltimoMomento partido.horario
        let jugadoresRestantes : Int := (partido.jugadores.length : Int) - 1
        let requiereReemplazo := decide (jugadoresMinimosParaCrear ≤ jugadoresRestantes)
        { success := true, matchId := partido.id, playerId := some jugador.id,
          tipoMotivo := TipoMotivo.motivo CancellationReason.jugador_cancela,
          esUltimoMomento := esUltimoMomento, requiereReemplazo := requiereReemplazo }

/-- Function `simularCancelarPartidoAutomatico` from `flows/cancellationFlow.ts`.
Note: the source performs no terminal-state check here; it only fails when
the match id does not exist.  The per-player cancellation notices are
`console.log` mocks; their count is returned by
`notificacionesCancelacion` below. -/
def simularCancelarPartidoAutomatico (MATCHES : List Match)
    (matchId : String) (motivo : CancellationReason) : CancellationResult :=
  match getMatchById MATCHES matchId with
  | none =>
    { success := false, matchId := matchId, playerId := none,
      tipoMotivo := TipoMotivo.error, esUltimoMomento := false, requiereReemplazo := false }
  | some partido =>
    { success := true, matchId := matchId, playerId := none,
      tipoMotivo := TipoMotivo.motivo motivo,
      esUltimoMomento := verificarUltimoMomento partido.horario,
      requiereReemplazo := false }

/-- Number of mock cancellation notices `simularCancelarPartidoAutomatico`
emits (one `console.log` per member when `notificarCancelacion` is on). -/
def notificacionesCancelacion (partido : Match) : Nat :=
  if notificarCancelacion then partido.jugadores.length else 0

/-! ### Confirmation flow (`flows/confirmationFlow.ts`) -/

/-- Type `ConfirmationResponse` from `flows/confirmationFlow.ts`. -/
inductive ConfirmationResponse where
  | SI
  | NO
  | TIMEOUT
deriving DecidableEq, Repr

inductive ConfirmationAccion where
  | confirmado
  | rechazado
  | timeout
  | ya_confirmado
  | error
deriving DecidableEq, Repr

/-- Result record `ConfirmationResult` (the `mensaje` text is not modelled;
`partidoCompleto` is optional as in the source). -/
structure ConfirmationResult where
  success : Bool
  matchId : String
  playerId : Option String
  accion : ConfirmationAccion
  partidoCompleto : Option Bool
deriving DecidableEq, Repr

/-- Function `simularTimeout` from `flows/confirmationFlow.ts`. -/
def simularTimeout (partido : Match) (jugadorId : String) : ConfirmationResult :=
  { success := true, matchId := partido.id, playerId := some jugadorId,
    accion := ConfirmationAccion.timeout, partidoCompleto := some false }

/-- Function `simularConfirmarAsistencia` from `flows/confirmationFlow.ts`:
validate player and match, membership, terminal state, then the
already-confirmed shortcut, and only then process the response. -/
def simularConfirmarAsistencia (players : List Player) (MATCHES : List Match)
    (telefonoJugador matchId : String) (respuesta : ConfirmationResponse) : ConfirmationResult :=
  match getPlayerByPhone players telefonoJugador with
  | none =>
    { success := false, matchId := matchId, playerId := none,
      accion := ConfirmationAccion.error, partidoCompleto := none }
  | some jugador =>
    match getMatchById MATCHES matchId with
    | none =>
      { success := false, matchId := matchId, playerId := none,
        accion := ConfirmationAccion.error, partidoCompleto := none }
    | some partido =>
      if ¬ partido.jugadores.contains jugador.id then
        { success := false, matchId := matchId, playerId := some jugador.id,
          accion := ConfirmationAccion.error, partidoCompleto := none }
      else if partido.estado = MatchStatus.canceled ∨ partido.estado = MatchStatus.completed then
        { success := false, matchId := matchId, playerId := some jugador.id,
          accion := ConfirmationAccion.error, partidoCompleto := none }
      else if partido.confirmados.contains jugador.id then
        { success := true, matchId := matchId, playerId := some jugador.id,
          accion := ConfirmationAccion.ya_confirmado, partidoCompleto := none }
      else
        match respuesta with
        | ConfirmationResponse.TIMEOUT => simularTimeout partido jugador.id
        | ConfirmationResponse.NO =>
          { success := true, matchId := matchId, playerId := some jugador.id,
            accion := ConfirmationAccion.rechazado, partidoCompleto := none }
        | ConfirmationResponse.SI =>
          let confirmadosDespues := partido.confirmados ++ [jugador.id]
          let partidoCompleto := confirmadosDespues.length == partido.jugadores.length
          { success := true, matchId := matchId, playerId := some jugador.id,
            accion := ConfirmationAccion.confirmado, partidoCompleto := some partidoCompleto }

/-! ### Grouping (`triggers/confirmationTimeoutTrigger.ts`, daily-trigger
part: `agruparJugadoresPorNivel`, `balancearGrupo`) -/

/-- Comparison used by `agruparJugadoresPorNivel`'s initial sort
(`(a, b) => a.nivelNumerico - b.nivelNumerico`, ascending). -/
def nivelLe (a b : Player) : Bool :=
  decide (a.nivelNumerico ≤ b.nivelNumerico)

/-- Comparison used for the "3 closest" selection: ascending absolute
level distance to the anchor. -/
def distanciaLe (ancla : Player) (a b : Player) : Bool :=
  decide (|a.nivelNumerico - ancla.nivelNumerico| ≤ |b.nivelNumerico - ancla.nivelNumerico|)

/-- Function `balancearGrupo` from the daily trigger: sort the 4 by level ascending
and return positions `[0, 2, 1, 3]` (weakest with strongest as partners).
Every call site passes a list of length 4, the only shape the source's
indexing is meaningful for; other lengths are returned unchanged. -/
def balancearGrupo (grupo : List Player) : List Player :=
  match sortBy nivelLe grupo with
  | [a, b, c, d] => [a, c, b, d]
  | otro => otro

/-- Candidate selection inside `agruparJugadoresPorNivel`: not-yet-used,
non-anchor players of the full pool within `tol` of the anchor's level. -/
def candidatosPara (pool : List Player) (usados : List String)
    (ancla : Player) (tol : Int) : List Player :=
  pool.filter (fun p =>
    !(usados.contains p.id) && (p.id != ancla.id) &&
      decide (|p.nivelNumerico - ancla.nivelNumerico| ≤ tol))

/-- The greedy anchor scan of `agruparJugadoresPorNivel`.  `pool` is the
full sorted list (the source's `pool.filter` ranges over it), `rest` the
anchors still to scan, `usados` the ids already placed in a group.
Returns (groups, skipped anchors, final `usados`).  The skipped-anchor
list is instrumentation: it records the anchors that hit the source's
`if (candidatos.length < 3) continue;` line. -/
def agruparLoop (pool : List Player) :
    List Player → List String → List (List Player) × List Player × List String
  | [], usados => ([], [], usados)
  | ancla :: rest, usados =>
    if usados.contains ancla.id then agruparLoop pool rest usados
    else
      let candDefault := candidatosPara pool usados ancla toleranciaDefault
      let candidatos :=
        if candDefault.length < 3 then candidatosPara pool usados ancla toleranciaExtendida
        else candDefault
      if candidatos.length < 3 then
        let resto := agruparLoop pool rest usados
        (resto.1, ancla :: resto.2.1, resto.2.2)
      else
        let tresmas := (sortBy (distanciaLe ancla) candidatos).take 3
        let grupo := ancla :: tresmas
        let grupoFinal := if balancearParejas then balancearGrupo grupo else grupo
        let resto := agruparLoop pool rest (usados ++ grupoFinal.map Player.id)
        (grupoFinal :: resto.1, resto.2.1, resto.2.2)

/-- Result of `agruparJugadoresPorNivel`, with the skipped-anchor
instrumentation alongside the source's `{ grupos, sinGrupo }`. -/
structure AgrupamientoResult where
  grupos : List (List Player)
  sinGrupo : List Player
  descartadosComoAncla : List Player
deriving Repr

/-- Function `agruparJugadoresPorNivel` from the daily trigger: sort by level,
greedily form groups of 4 (anchor + 3 closest within the admitted
tolerance), report the never-grouped players as `sinGrupo`. -/
def agruparJugadoresPorNivel (jugadores : List Player) : AgrupamientoResult :=
  let pool := sortBy nivelLe jugadores
  let resultado := agruparLoop pool pool []
  { grupos := resultado.1
    sinGrupo := pool.filter (fun p => !(resultado.2.2.contains p.id))
    descartadosComoAncla := resultado.2.1 }

/-! ### Confirmation-timeout trigger
(`triggers/confirmationTimeoutTrigger.ts`) -/

/-- Helper `notificacionVencida` from `data/playerMatchStatus.ts`. -/
def notificacionVencida (n : PlayerNotification) (ahora : Int) : Bool :=
  decide (n.tiempoLimite < ahora) && decide (n.estado = PlayerMatchState.pending)

/-- Helper `obtenerPendientesVencidos` from `data/playerMatchStatus.ts`. -/
def obtenerPendientesVencidos (notificaciones : List PlayerNotification)
    (ahora : Int) : List PlayerNotification :=
  notificaciones.filter (fun n => notificacionVencida n ahora)

/-- Helper `todosConfirmaron` from `data/playerMatchStatus.ts`. -/
def todosConfirmaron (notificaciones : List PlayerNotification) : Bool :=
  notificaciones.length == 4 &&
    notificaciones.all (fun n => decide (n.estado = PlayerMatchState.confirmed))

/-- Helper `contarJugadoresActivos` from `data/playerMatchStatus.ts`. -/
def contarJugadoresActivos (notificaciones : List PlayerNotification) : Nat :=
  (notificaciones.filter (fun n =>
    decide (n.estado = PlayerMatchState.confirmed) ||
    decide (n.estado = PlayerMatchState.pending))).length

inductive CheckAccion where
  | sin_cambios
  | timeout_procesado
  | reemplazo_iniciado
  | partido_confirmado
  | partido_cancelado
  | error
deriving DecidableEq, Repr

/-- Result record `PartidoCheckResult`.  The source's `detalles : string[]` log is
abstracted into two instrumentation counters: `timeouts` is the number of
`detalles` lines containing "TIMEOUT" (one per expired pending record
processed) and `mensajesEnviados` the number of mock WhatsApp sends the
processing emitted. -/
structure PartidoCheckResult where
  matchId : String
  accion : CheckAccion
  timeouts : Nat
  mensajesEnviados : Nat
deriving DecidableEq, Repr

/-- Function `marcarPartidoComoConfirmado` from the trigger: promote the match to
`confirmed` and sync the legacy `confirmados` field. -/
def marcarPartidoComoConfirmado (partido : Match) : Match :=
  { partido with estado := MatchStatus.confirmed, confirmados := partido.jugadores }

/-- Function `notificarPartidoConfirmado` sends one message per member whose player
record exists (`if (!jugador) continue;`); this is its send count. -/
def notificacionesPartidoConfirmado (players : List Player) (partido : Match) : Nat :=
  (partido.jugadores.filter (fun pid => (getPlayerById players pid).isSome)).length

/-- The per-expired-record replacement loop at the end of
`procesarPartido`: for each timed-out player call
`simularBuscarReemplazo(partido.id, notif.playerId, 1)` (the id lookup
resolves to the already-updated match being processed, hence
`buscarReemplazoConPartido`), count one candidate notification per
"found" result, and return early with `partido_cancelado` if the search
reports it.  Returns the final `accion` and the send count. -/
def procesarReemplazos (players : List Player) (partido : Match) :
    List PlayerNotification → CheckAccion × Nat
  | [] => (CheckAccion.reemplazo_iniciado, 0)
  | notif :: resto =>
    let resultado := buscarReemplazoConPartido players partido notif.playerId 1
    let enviado := if resultado.accion = ReplacementAccion.encontrado then 1 else 0
    if resultado.accion = ReplacementAccion.partido_cancelado then
      (CheckAccion.partido_cancelado, enviado)
    else
      let siguiente := procesarReemplazos players partido resto
      (siguiente.1, enviado + siguiente.2)

/-- `procesarPartido` from the trigger, as a pure state transformer: the
returned match is the source's in-place mutation of the processed match
(expired pending records stamped `timeout`, or promotion to `confirmed`).
The side-effect-free mock calls whose results the source discards
(`simularConfirmarAsistencia(..., "TIMEOUT")` per expired record, and
`simularCancelarPartidoAutomatico` which in the mock does not change the
match state) are represented only through the instrumentation counters. -/
def procesarPartido (players : List Player) (partido : Match) (ahora : Int) :
    Match × PartidoCheckResult :=
  if partido.notificaciones.length = 0 then
    (partido, { matchId := partido.id, accion := CheckAccion.error,
                timeouts := 0, mensajesEnviados := 0 })
  else if todosConfirmaron partido.notificaciones then
    (marcarPartidoComoConfirmado partido,
      { matchId := partido.id, accion := CheckAccion.partido_confirmado, timeouts := 0,
        mensajesEnviados := notificacionesPartidoConfirmado players partido })
  else
    let vencidos := obtenerPendientesVencidos partido.notificaciones ahora
    if vencidos.length = 0 then
      (partido, { matchId := partido.id, accion := CheckAccion.sin_cambios,
                  timeouts := 0, mensajesEnviados := 0 })
    else
      let notifsNuevas := partido.notificaciones.map (fun n =>
        if notificacionVencida n ahora then
          { n with estado := PlayerMatchState.timeout, respondioEn := some ahora }
        else n)
      let partidoNuevo := { partido with notificaciones := notifsNuevas }
      let activosRestantes := contarJugadoresActivos notifsNuevas
      if (activosRestantes : Int) < jugadoresMinimosParaCrear then
        (partidoNuevo,
          { matchId := partido.id, accion := CheckAccion.partido_cancelado,
            timeouts := vencidos.length,
            mensajesEnviados := notificacionesCancelacion partido })
      else
        let reemplazos := procesarReemplazos players partidoNuevo vencidos
        (partidoNuevo,
          { matchId := partido.id, accion := reemplazos.1,
            timeouts := vencidos.length, mensajesEnviados := reemplazos.2 })

/-- Result record `CheckResult` from the trigger.  `mensajesEnviados` aggregates the
per-match instrumentation counters. -/
structure CheckResult where
  ejecutadoEn : Int
  partidosRevisados : Nat
  partidosConfirmados : Nat
  partidosCancelados : Nat
  timeoutsDetectados : Nat
  reemplazosIniciados : Nat
  mensajesEnviados : Nat
  resultados : List PartidoCheckResult
deriving DecidableEq, Repr

/-- Function `ejecutarCheckConfirmaciones` from the trigger: process every
`notified` match, leave the rest untouched, and aggregate the metrics the
source computes from the per-match results.  (The source's early return
when no match is `notified` produces the same value as the general
path.) -/
def ejecutarCheckConfirmaciones (players : List Player) (MATCHES : List Match)
    (ahora : Int) : List Match × CheckResult :=
  let partidosNotificados := getNotifiedMatches MATCHES
  let resultados := partidosNotificados.map (fun m => (procesarPartido players m ahora).2)
  let nuevosMatches := MATCHES.map (fun m =>
    if m.estado = MatchStatus.notified then (procesarPartido players m ahora).1 else m)
  (nuevosMatches,
    { ejecutadoEn := ahora
      partidosRevisados := partidosNotificados.length
      partidosConfirmados :=
        resultados.countP (fun r => decide (r.accion = CheckAccion.partido_confirmado))
      partidosCancelados :=
        resultados.countP (fun r => decide (r.accion = CheckAccion.partido_cancelado))
      timeoutsDetectados :=
        (resultados.map (fun r =>
          if r.accion = CheckAccion.timeout_procesado ∨
             r.accion = CheckAccion.reemplazo_iniciado then r.timeouts else 0)).sum
      reemplazosIniciados :=
        resultados.countP (fun r => decide (r.accion = CheckAccion.reemplazo_iniciado))
      mensajesEnviados := (resultados.map PartidoCheckResult.mensajesEnviados).sum
      resultados := resultados })

/-! ### Concrete scenario data used by the witnesses and counterexamples -/

/-- Players for the C1/C2 concrete scenarios: a single available
candidate whose level 5.23 is at distance 1.3 from the match average
6.53 (outside default tolerance 1.0, inside extended tolerance 1.5). -/
def jugadoresEscenarioReemplazo : List Player :=
  [{ id := "q1", nombre := "Q1", categoria := 6, subnivel := "base", nivelNumerico := 523,
     telefono := "5491100000001", disponible := true }]

/-- Match for the C1 concrete scenario: average level 6.53, not in a
terminal state, with a vacated player "p12". -/
def partidoEscenarioReemplazo : Match :=
  { id := "m3", jugadores := ["p10", "p11", "p12"], confirmados := [], horario := 0,
    canchaId := "c3", estado := MatchStatus.waiting, categoria := 6, nivelPromedio := 653,
    creadoEn := 0, motivoCancelacion := none, notificaciones := [] }

def partidosEscenarioReemplazo : List Match := [partidoEscenarioReemplazo]

def grupoEjemploBalanceo : List Player :=
  [{ id := "b1", nombre := "B1", categoria := 5, subnivel := "base", nivelNumerico := 410,
     telefono := "1", disponible := true },
   { id := "b2", nombre := "B2", categoria := 5, subnivel := "base", nivelNumerico := 540,
     telefono := "2", disponible := true },
   { id := "b3", nombre := "B3", categoria := 5, subnivel := "base", nivelNumerico := 530,
     telefono := "3", disponible := true },
   { id := "b4", nombre := "B4", categoria := 5, subnivel := "base", nivelNumerico := 480,
     telefono := "4", disponible := true }]

def jugadorEscenarioCancelacion : Player :=
  { id := "p3", nombre := "Santiago", categoria := 4, subnivel := "avanzado",
    nivelNumerico := 480, telefono := "5491144556677", disponible := true }

/-- A waiting match with two members: after one leaves, 1 ≥
`jugadoresMinimosParaCrear` remains, so it is replacement-recoverable. -/
def partidoEscenarioCancelacion : Match :=
  { id := "m2", jugadores := ["p3", "p5"], confirmados := [], horario := 1739357400000,
    canchaId := "c2", estado := MatchStatus.waiting, categoria := 4, nivelPromedio := 445,
    creadoEn := 0, motivoCancelacion := none, notificaciones := [] }

def partidoCanceladoEjemplo : Match :=
  { id := "m4", jugadores := ["p1", "p2", "p3", "p4"], confirmados := ["p1"],
    horario := 1739264400000, canchaId := "c1", estado := MatchStatus.canceled,
    categoria := 3, nivelPromedio := 420, creadoEn := 0,
    motivoCancelacion := some "sin confirmaciones", notificaciones := [] }

def jugadorYaConfirmado : Player :=
  { id := "p6", nombre := "Carolina", categoria := 5, subnivel := "avanzado",
    nivelNumerico := 590, telefono := "5491177889900", disponible := true }

def partidoYaConfirmado : Match :=
  { id := "m1", jugadores := ["p6", "p7", "p8", "p10"], confirmados := ["p6", "p7"],
    horario := 1739354400000, canchaId := "c1", estado := MatchStatus.waiting,
    categoria := 5, nivelPromedio := 570, creadoEn := 0,
    motivoCancelacion := none, notificaciones := [] }

/-- Input with two entries sharing the id "d1": the grouping pass loses
one of them (neither grouped nor reported as leftover). -/
def jugadoresConIdDuplicado : List Player :=
  [{ id := "d1", nombre := "D1", categoria := 5, subnivel := "base", nivelNumerico := 500,
     telefono := "1", disponible := true },
   { id := "d1", nombre := "D1bis", categoria := 5, subnivel := "base", nivelNumerico := 500,
     telefono := "2", disponible := true },
   { id := "d2", nombre := "D2", categoria := 5, subnivel := "base", nivelNumerico := 500,
     telefono := "3", disponible := true },
   { id := "d3", nombre := "D3", categoria := 5, subnivel := "base", nivelNumerico := 500,
     telefono := "4", disponible := true },
   { id := "d4", nombre := "D4", categoria := 5, subnivel := "base", nivelNumerico := 500,
     telefono := "5", disponible := true }]

/-- Five distinct players: four group together, the fifth (far level) is
left over. -/
def jugadoresEscenarioParticion : List Player :=
  [{ id := "e1", nombre := "E1", categoria := 3, subnivel := "base", nivelNumerico := 100,
     telefono := "1", disponible := true },
   { id := "e2", nombre := "E2", categoria := 3, subnivel := "base", nivelNumerico := 110,
     telefono := "2", disponible := true },
   { id := "e3", nombre := "E3", categoria := 3, subnivel := "base", nivelNumerico := 120,
     telefono := "3", disponible := true },
   { id := "e4", nombre := "E4", categoria := 3, subnivel := "base", nivelNumerico := 130,
     telefono := "4", disponible := true },
   { id := "e5", nombre := "E5", categoria := 8, subnivel := "base", nivelNumerico := 900,
     telefono := "5", disponible := true }]

/-- Four players where the weakest anchor (level 1.00) finds only one
candidate within the extended tolerance and is skipped, but the next
anchor (level 2.50) later recruits it into a full group. -/
def jugadoresAnclaDescartada : List Player :=
  [{ id := "a", nombre := "A", categoria := 3, subnivel := "base", nivelNumerico := 100,
     telefono := "1", disponible := true },
   { id := "b", nombre := "B", categoria := 4, subnivel := "base", nivelNumerico := 250,
     telefono := "2", disponible := true },
   { id := "c", nombre := "C", categoria := 5, subnivel := "base", nivelNumerico := 350,
     telefono := "3", disponible := true },
   { id := "d", nombre := "D", categoria := 5, subnivel := "base", nivelNumerico := 360,
     telefono := "4", disponible := true }]

def anclaDescartadaEjemplo : Player :=
  { id := "a", nombre := "A", categoria := 3, subnivel := "base", nivelNumerico := 100,
    telefono := "1", disponible := true }

/-! ### Helper lemmas -/

lemma insertSortedBy_perm (le : α → α → Bool) (x : α) (l : List α) :
    (insertSortedBy le x l).Perm (x :: l) := by
  induction l with
  | nil => exact List.Perm.refl _
  | cons y t ih =>
    unfold insertSortedBy
    by_cases h : le x y = true
    · rw [if_pos h]
    · rw [if_neg h]
      exact (List.Perm.cons y ih).trans (List.Perm.swap x y t)

lemma sortBy_perm (le : α → α → Bool) (l : List α) : (sortBy le l).Perm l := by
  induction l with
  | nil => exact List.Perm.refl _
  | cons x t ih =>
    exact (insertSortedBy_perm le x (sortBy le t)).trans (List.Perm.cons x ih)

lemma mem_insertSortedBy (le : α → α → Bool) (x a : α) (l : List α) :
    a ∈ insertSortedBy le x l ↔ a = x ∨ a ∈ l := by
  have h := insertSortedBy_perm le x l
  constructor
  · intro ha
    have := h.mem_iff.mp ha
    simpa using this
  · intro ha
    apply h.mem_iff.mpr
    simpa using ha

lemma pairwise_insertSortedBy_nivel (x : Player) (l : List Player)
    (h : l.Pairwise (fun a b => a.nivelNumerico ≤ b.nivelNumerico)) :
    (insertSortedBy nivelLe x l).Pairwise (fun a b => a.nivelNumerico ≤ b.nivelNumerico) := by
  induction l with
  | nil => simp [insertSortedBy]
  | cons y t ih =>
    unfold insertSortedBy
    rcases List.pairwise_cons.mp h with ⟨hy, ht⟩
    by_cases hxy : nivelLe x y = true
    · rw [if_pos hxy]
      have hxyle : x.nivelNumerico ≤ y.nivelNumerico := by
        simpa [nivelLe] using hxy
      refine List.pairwise_cons.mpr ⟨?_, h⟩
      intro b hb
      rcases List.mem_cons.mp hb with hb | hb
      · rw [hb]; exact hxyle
      · exact le_trans hxyle (hy b hb)
    · rw [if_neg hxy]
      have hyx : y.nivelNumerico ≤ x.nivelNumerico := by
        have : ¬ x.nivelNumerico ≤ y.nivelNumerico := by
          simpa [nivelLe] using hxy
        exact le_of_not_le this
      refine List.pairwise_cons.mpr ⟨?_, ih ht⟩
      intro b hb
      rcases (mem_insertSortedBy nivelLe x b t).mp hb with hb | hb
      · rw [hb]; exact hyx
      · exact hy b hb

lemma sortBy_pairwise_nivel (l : List Player) :
    (sortBy nivelLe l).Pairwise (fun a b => a.nivelNumerico ≤ b.nivelNumerico) := by
  induction l with
  | nil => simp [sortBy]
  | cons x t ih => exact pairwise_insertSortedBy_nivel x (sortBy nivelLe t) ih

lemma balancearGrupo_perm (g : List Player) : (balancearGrupo g).Perm g := by
  have hs := sortBy_perm nivelLe g
  unfold balancearGrupo
  split
  · next a b c d heq =>
    rw [heq] at hs
    exact (List.Perm.cons a (List.Perm.swap b c [d])).trans hs
  · next => exact hs

lemma mem_candidatosPara {pool : List Player} {usados : List String} {ancla : Player}
    {tol : Int} {p : Player} (h : p ∈ candidatosPara pool usados ancla tol) :
    p ∈ pool ∧ usados.contains p.id = false ∧ p.id ≠ ancla.id := by
  have hm := List.mem_filter.mp h
  have := hm.2
  simp only [Bool.and_eq_true, Bool.not_eq_true', bne_iff_ne, decide_eq_true_eq] at this
  exact ⟨hm.1, this.1.1, this.1.2⟩

lemma candidatosPara_ids_nodup {pool : List Player}
    (hpool : (pool.map Player.id).Nodup) (usados : List String) (ancla : Player) (tol : Int) :
    ((candidatosPara pool usados ancla tol).map Player.id).Nodup :=
  List.Nodup.sublist (List.Sublist.map Player.id (List.filter_sublist pool)) hpool

/-- One-step unfolding of `agruparLoop` at a cons cell. -/
lemma agruparLoop_cons (pool : List Player) (ancla : Player) (rest : List Player)
    (usados : List String) :
    agruparLoop pool (ancla :: rest) usados =
      if usados.contains ancla.id then agruparLoop pool rest usados
      else
        let candDefault := candidatosPara pool usados ancla toleranciaDefault
        let candidatos :=
          if candDefault.length < 3 then candidatosPara pool usados ancla toleranciaExtendida
          else candDefault
        if candidatos.length < 3 then
          ((agruparLoop pool rest usados).1,
            ancla :: (agruparLoop pool rest usados).2.1,
            (agruparLoop pool rest usados).2.2)
        else
          let tresmas := (sortBy (distanciaLe ancla) candidatos).take 3
          let grupo := ancla :: tresmas
          let grupoFinal := if balancearParejas then balancearGrupo grupo else grupo
          (grupoFinal :: (agruparLoop pool rest (usados ++ grupoFinal.map Player.id)).1,
            (agruparLoop pool rest (usados ++ grupoFinal.map Player.id)).2.1,
            (agruparLoop pool rest (usados ++ grupoFinal.map Player.id)).2.2) := rfl

/-- Loop invariant of the greedy grouping scan: the final `usados` extends
the initial one with exactly the ids of the grouped players; it stays
duplicate-free; every group has 4 members, all drawn from `pool`; every
skipped anchor comes from the scanned list. -/
lemma agruparLoop_spec (pool : List Player) (hpool : (pool.map Player.id).Nodup) :
    ∀ (rest : List Player) (usados : List String),
      (∀ a ∈ rest, a ∈ pool) → usados.Nodup →
      ((agruparLoop pool rest usados).2.2 =
        usados ++ ((agruparLoop pool rest usados).1.flatten.map Player.id)) ∧
      (agruparLoop pool rest usados).2.2.Nodup ∧
      (∀ g ∈ (agruparLoop pool rest usados).1, g.length = 4) ∧
      (∀ g ∈ (agruparLoop pool rest usados).1, ∀ p ∈ g, p ∈ pool) ∧
      (∀ p ∈ (agruparLoop pool rest usados).2.1, p ∈ rest) := by
  intro rest
  induction rest with
  | nil =>
    intro usados hrest hnodup
    simp [agruparLoop]
    exact hnodup
  | cons ancla rest ih =>
    intro usados hrest hnodup
    have hrest' : ∀ a ∈ rest, a ∈ pool := fun a ha => hrest a (List.mem_cons_of_mem _ ha)
    rw [agruparLoop_cons]
    by_cases hu : usados.contains ancla.id = true
    · rw [if_pos hu]
      rcases ih usados hrest' hnodup with ⟨h1, h2, h3, h4, h5⟩
      exact ⟨h1, h2, h3, h4, fun p hp => List.mem_cons_of_mem _ (h5 p hp)⟩
    · rw [Bool.not_eq_true] at hu
      rw [if_neg (by rw [hu]; exact Bool.false_ne_true)]
      simp only []
      set candDefault := candidatosPara pool usados ancla toleranciaDefault with hcd
      set candidatos :=
        (if candDefault.length < 3 then candidatosPara pool usados ancla toleranciaExtendida
         else candDefault) with hcands
      have hcand_cases : candidatos = candidatosPara pool usados ancla toleranciaDefault ∨
          candidatos = candidatosPara pool usados ancla toleranciaExtendida := by
        rw [hcands]
        by_cases h : candDefault.length < 3
        · rw [if_pos h]; exact Or.inr rfl
        · rw [if_neg h]; exact Or.inl hcd
      have hmem_cand : ∀ p ∈ candidatos,
          p ∈ pool ∧ usados.contains p.id = false ∧ p.id ≠ ancla.id := by
        intro p hp
        rcases hcand_cases with h | h <;> (rw [h] at hp; exact mem_candidatosPara hp)
      have hids_cand : (candidatos.map Player.id).Nodup := by
        rcases hcand_cases with h | h <;>
          (rw [h]; exact candidatosPara_ids_nodup hpool usados ancla _)
      by_cases hc : candidatos.length < 3
      · rw [if_pos hc]
        rcases ih usados hrest' hnodup with ⟨h1, h2, h3, h4, h5⟩
        refine ⟨h1, h2, h3, h4, ?_⟩
        intro p hp
        rcases List.mem_cons.mp hp with hp | hp
        · rw [hp]; exact List.mem_cons_self _ _
        · exact List.mem_cons_of_mem _ (h5 p hp)
      · rw [if_neg hc]
        simp only []
        set sorted := sortBy (distanciaLe ancla) candidatos with hsorted
        have hsort_perm : sorted.Perm candidatos := sortBy_perm _ _
        set tresmas := sorted.take 3 with htres
        have htres_sub : List.Sublist tresmas sorted := List.take_sublist 3 sorted
        have htres_mem : ∀ p ∈ tresmas, p ∈ candidatos := by
          intro p hp
          exact hsort_perm.mem_iff.mp (htres_sub.subset hp)
        have htres_len : tresmas.length = 3 := by
          rw [htres, List.length_take]
          have := hsort_perm.length_eq
          omega
        have hsorted_ids : (sorted.map Player.id).Nodup :=
          ((hsort_perm.map Player.id).nodup_iff).mpr hids_cand
        have htres_ids : (tresmas.map Player.id).Nodup :=
          List.Nodup.sublist (List.Sublist.map Player.id htres_sub) hsorted_ids
        set grupo := ancla :: tresmas with hgrupo
        have hgrupo_ids : (grupo.map Player.id).Nodup := by
          rw [hgrupo, List.map_cons, List.nodup_cons]
          refine ⟨?_, htres_ids⟩
          intro hmem
          rcases List.mem_map.mp hmem with ⟨p, hp, hpid⟩
          exact (hmem_cand p (htres_mem p hp)).2.2 hpid
        set grupoFinal := (if balancearParejas then balancearGrupo grupo else grupo) with hgf
        have hgf_perm : grupoFinal.Perm grupo := by
          rw [hgf]
          by_cases hb : balancearParejas = true
          · rw [if_pos hb]; exact balancearGrupo_perm grupo
          · rw [if_neg hb]
        have hgf_len : grupoFinal.length = 4 := by
          rw [hgf_perm.length_eq, hgrupo, List.length_cons, htres_len]
        have hgf_ids : (grupoFinal.map Player.id).Nodup :=
          ((hgf_perm.map Player.id).nodup_iff).mpr hgrupo_ids
        have hgf_pool : ∀ p ∈ grupoFinal, p ∈ pool := by
          intro p hp
          have hp' := hgf_perm.mem_iff.mp hp
          rcases List.mem_cons.mp hp' with hp' | hp'
          · rw [hp']; exact hrest ancla (List.mem_cons_self _ _)
          · exact (hmem_cand p (htres_mem p hp')).1
        have hdisj : ∀ s ∈ grupoFinal.map Player.id, s ∉ usados := by
          intro s hs
          rcases List.mem_map.mp hs with ⟨p, hp, rfl⟩
          have hp' := hgf_perm.mem_iff.mp hp
          rcases List.mem_cons.mp hp' with hp' | hp'
          · rw [hp']
            simpa using hu
          · have := (hmem_cand p (htres_mem p hp')).2.1
            simpa using this
        have husados' : (usados ++ grupoFinal.map Player.id).Nodup := by
          rw [List.nodup_append]
          exact ⟨hnodup, hgf_ids, fun a ha ha' => hdisj a ha' ha⟩
        rcases ih (usados ++ grupoFinal.map Player.id) hrest' husados' with ⟨h1, h2, h3, h4, h5⟩
        refine ⟨?_, h2, ?_, ?_, ?_⟩
        · rw [h1, List.flatten_cons, List.map_append, List.append_assoc]
        · intro g hg
          rcases List.mem_cons.mp hg with hg | hg
          · rw [hg]; exact hgf_len
          · exact h3 g hg
        · intro g hg
          rcases List.mem_cons.mp hg with hg | hg
          · rw [hg]; exact hgf_pool
          · exact h4 g hg
        · intro p hp
          exact List.mem_cons_of_mem _ (h5 p hp)

/-- In a pool with duplicate-free ids, filtering the pool by membership of
the id in a duplicate-free selection drawn from the pool recovers exactly
that selection (up to order). -/
lemma filter_ids_perm {pool S : List Player}
    (hpool : (pool.map Player.id).Nodup)
    (hSsub : ∀ p ∈ S, p ∈ pool)
    (hSids : (S.map Player.id).Nodup) :
    (pool.filter (fun p => (S.map Player.id).contains p.id)).Perm S := by
  have hpoolnd : pool.Nodup := List.Nodup.of_map _ hpool
  have hSnd : S.Nodup := List.Nodup.of_map _ hSids
  have hfilnd : (pool.filter (fun p => (S.map Player.id).contains p.id)).Nodup :=
    List.Nodup.sublist (List.filter_sublist pool) hpoolnd
  rw [List.perm_ext_iff_of_nodup hfilnd hSnd]
  intro a
  constructor
  · intro ha
    have hm := List.mem_filter.mp ha
    have hidmem : a.id ∈ S.map Player.id := by simpa using hm.2
    rcases List.mem_map.mp hidmem with ⟨y, hy, hyid⟩
    have : y = a := List.inj_on_of_nodup_map hpool (hSsub y hy) hm.1 hyid
    rw [← this]
    exact hy
  · intro ha
    refine List.mem_filter.mpr ⟨hSsub a ha, ?_⟩
    simp
    exact ⟨a, ha, rfl⟩

/-- A member of the full pool lies in some group exactly when its id was
recorded in the final `usados` set of the scan. -/
lemma mem_flatten_iff_id {pool : List Player} {gs : List (List Player)} {p : Player}
    (hpool : (pool.map Player.id).Nodup)
    (hsub : ∀ g ∈ gs, ∀ q ∈ g, q ∈ pool)
    (hp : p ∈ pool) :
    p ∈ gs.flatten ↔ p.id ∈ gs.flatten.map Player.id := by
  constructor
  · intro h
    exact List.mem_map_of_mem Player.id h
  · intro h
    rcases List.mem_map.mp h with ⟨y, hy, hyid⟩
    have hypool : y ∈ pool := by
      rcases List.mem_flatten.mp hy with ⟨g, hg, hyg⟩
      exact hsub g hg y hyg
    have : y = p := List.inj_on_of_nodup_map hpool hypool hp hyid
    rw [← this]
    exact hy

/-- Stamping the expired pending records `timeout` leaves no expired
pending record behind: the second scan finds nothing. -/
lemma obtenerPendientesVencidos_tras_marcar (ns : List PlayerNotification) (ahora : Int) :
    obtenerPendientesVencidos (ns.map (fun n =>
      if notificacionVencida n ahora then
        { n with estado := PlayerMatchState.timeout, respondioEn := some ahora }
      else n)) ahora = [] := by
  rw [obtenerPendientesVencidos, List.filter_eq_nil_iff]
  intro a ha
  rcases List.mem_map.mp ha with ⟨n, hn, rfl⟩
  by_cases h : notificacionVencida n ahora = true
  · rw [if_pos h]
    simp [notificacionVencida]
  · rw [if_neg h]
    simpa using h

/-- After at least one record was stamped `timeout`, not every record is
`confirmed`. -/
lemma todosConfirmaron_tras_marcar (ns : List PlayerNotification) (ahora : Int)
    (h : obtenerPendientesVencidos ns ahora ≠ []) :
    todosConfirmaron (ns.map (fun n =>
      if notificacionVencida n ahora then
        { n with estado := PlayerMatchState.timeout, respondioEn := some ahora }
      else n)) = false := by
  obtain ⟨v, hv⟩ := List.exists_mem_of_ne_nil _ h
  have hvmem : v ∈ ns ∧ notificacionVencida v ahora = true := by
    rw [obtenerPendientesVencidos] at hv
    exact List.mem_filter.mp hv
  rw [todosConfirmaron]
  rw [Bool.and_eq_false_iff]
  right
  rw [List.all_eq_false]
  refine ⟨{ v with estado := PlayerMatchState.timeout, respondioEn := some ahora }, ?_, by simp⟩
  refine List.mem_map.mpr ⟨v, hvmem.1, ?_⟩
  rw [if_pos hvmem.2]

/-- Re-processing the match a first `procesarPartido` pass produced — as
long as it is still `notified` — changes nothing: the match is returned
unchanged with `sin_cambios` (or `error` for a malformed match), zero
timeouts and zero sends. -/
lemma procesarPartido_segunda_pasada (players : List Player) (partido : Match) (ahora : Int)
    (h : (procesarPartido players partido ahora).1.estado = MatchStatus.notified) :
    (procesarPartido players (procesarPartido players partido ahora).1 ahora).1 =
      (procesarPartido players partido ahora).1 ∧
    ((procesarPartido players (procesarPartido players partido ahora).1 ahora).2.accion =
        CheckAccion.sin_cambios ∨
      (procesarPartido players (procesarPartido players partido ahora).1 ahora).2.accion =
        CheckAccion.error) ∧
    (procesarPartido players (procesarPartido players partido ahora).1 ahora).2.timeouts = 0 ∧
    (procesarPartido players
      (procesarPartido players partido ahora).1 ahora).2.mensajesEnviados = 0 := by
  by_cases hlen : partido.notificaciones.length = 0
  · have h1 : procesarPartido players partido ahora =
        (partido, { matchId := partido.id, accion := CheckAccion.error,
                    timeouts := 0, mensajesEnviados := 0 }) := by
      simp [procesarPartido, hlen]
    rw [h1]
    simp [procesarPartido, hlen]
  · by_cases htodos : todosConfirmaron partido.notificaciones = true
    · exfalso
      have h1 : (procesarPartido players partido ahora).1 =
          marcarPartidoComoConfirmado partido := by
        simp [procesarPartido, hlen, htodos]
      rw [h1] at h
      simp [marcarPartidoComoConfirmado] at h
    · by_cases hven : (obtenerPendientesVencidos partido.notificaciones ahora).length = 0
      · have h1 : (procesarPartido players partido ahora).1 = partido := by
          simp [procesarPartido, hlen, htodos, hven]
        rw [h1]
        simp [procesarPartido, hlen, htodos, hven]
      · have hvne : obtenerPendientesVencidos partido.notificaciones ahora ≠ [] := by
          intro hcontra
          exact hven (by rw [hcontra]; rfl)
        have h1 : (procesarPartido players partido ahora).1 =
            { partido with notificaciones := partido.notificaciones.map (fun n =>
                if notificacionVencida n ahora then
                  { n with estado := PlayerMatchState.timeout, respondioEn := some ahora }
                else n) } := by
          simp only [procesarPartido, if_neg hlen, if_neg htodos, if_neg hven]
          split <;> rfl
        rw [h1]
        have hlen2 : (partido.notificaciones.map (fun n =>
            if notificacionVencida n ahora then
              { n with estado := PlayerMatchState.timeout, respondioEn := some ahora }
            else n)).length = partido.notificaciones.length := List.length_map _ _
        have htodos2 := todosConfirmaron_tras_marcar partido.notificaciones ahora hvne
        have hven2 := obtenerPendientesVencidos_tras_marcar partido.notificaciones ahora
        simp [procesarPartido, hlen2, hlen, htodos2, hven2]

lemma suma_lista_cero (l : List Nat) (h : ∀ x ∈ l, x = 0) : l.sum = 0 := by
  induction l with
  | nil => rfl
  | cons x t ih =>
    rw [List.sum_cons, h x (List.mem_cons_self x t), ih (fun y hy => h y (List.mem_cons_of_mem x hy))]

/-! ### Claim theorems -/

/-- Claim C1: for every existing match not in a terminal state and every
attempt number between 1 and the configured maximum,
`simularBuscarReemplazo` builds the candidate pool with the default
tolerance (a non-empty default pool yields `encontrado` with its first
candidate); exactly when the attempt number is 2 and the default pool is
empty it retries once with the extended tolerance before returning, and
on every other attempt number an empty default pool yields
`no_encontrado` without trying the extended tolerance. -/
theorem simularBuscarReemplazo_escalada_tolerancia
    (players : List Player) (MATCHES : List Match)
    (matchId jugadorReemplazadoId : String) (intento : Nat) (partido : Match)
    (hpartido : getMatchById MATCHES matchId = some partido)
    (hestado : ¬ (partido.estado = MatchStatus.canceled ∨ partido.estado = MatchStatus.completed))
    (_hmin : 1 ≤ intento) (hmax : intento ≤ maxIntentosReemplazo) :
    (∀ c resto, buscarCandidatos players partido jugadorReemplazadoId false = c :: resto →
      (simularBuscarReemplazo players MATCHES matchId jugadorReemplazadoId intento).accion =
        ReplacementAccion.encontrado ∧
      (simularBuscarReemplazo players MATCHES matchId jugadorReemplazadoId intento).reemplazanteId =
        some c.id) ∧
    (buscarCandidatos players partido jugadorReemplazadoId false = [] →
      (intento = 2 →
        (buscarCandidatos players partido jugadorReemplazadoId true = [] →
          (simularBuscarReemplazo players MATCHES matchId jugadorReemplazadoId intento).accion =
            ReplacementAccion.no_encontrado) ∧
        (∀ c resto, buscarCandidatos players partido jugadorReemplazadoId true = c :: resto →
          (simularBuscarReemplazo players MATCHES matchId jugadorReemplazadoId intento).accion =
            ReplacementAccion.encontrado ∧
          (simularBuscarReemplazo players MATCHES matchId jugadorReemplazadoId
              intento).reemplazanteId = some c.id)) ∧
      (intento ≠ 2 →
        (simularBuscarReemplazo players MATCHES matchId jugadorReemplazadoId intento).accion =
          ReplacementAccion.no_encontrado)) := by
  have hcap : ¬ maxIntentosReemplazo < intento := not_lt.mpr hmax
  refine ⟨?_, ?_⟩
  · intro c resto hpool
    simp [simularBuscarReemplazo, hpartido, buscarReemplazoConPartido, hestado, hcap, hpool,
      notificarCandidato]
  · intro hvacio
    refine ⟨?_, ?_⟩
    · intro h2
      refine ⟨?_, ?_⟩
      · intro hext
        simp [simularBuscarReemplazo, hpartido, buscarReemplazoConPartido, hestado, hcap,
          hvacio, h2, hext, maxIntentosReemplazo]
      · intro c resto hext
        simp [simularBuscarReemplazo, hpartido, buscarReemplazoConPartido, hestado, hcap,
          hvacio, h2, hext, notificarCandidato, maxIntentosReemplazo]
    · intro h2
      simp [simularBuscarReemplazo, hpartido, buscarReemplazoConPartido, hestado, hcap,
        hvacio, h2]

/-- Witness for C1, realizing the claim's concrete scenario: match
average 6.53 and a sole available candidate at distance 1.3 — attempt 1
returns `no_encontrado`, attempt 2 returns `encontrado` with that
candidate. -/
theorem simularBuscarReemplazo_escalada_tolerancia_witness :
    (simularBuscarReemplazo jugadoresEscenarioReemplazo partidosEscenarioReemplazo
        "m3" "p12" 1).accion = ReplacementAccion.no_encontrado ∧
    (simularBuscarReemplazo jugadoresEscenarioReemplazo partidosEscenarioReemplazo
        "m3" "p12" 2).accion = ReplacementAccion.encontrado ∧
    (simularBuscarReemplazo jugadoresEscenarioReemplazo partidosEscenarioReemplazo
        "m3" "p12" 2).reemplazanteId = some "q1" := by
  have h1 := simularBuscarReemplazo_escalada_tolerancia jugadoresEscenarioReemplazo
    partidosEscenarioReemplazo "m3" "p12" 1 partidoEscenarioReemplazo
    (by decide) (by decide) (by decide) (by decide)
  have h2 := simularBuscarReemplazo_escalada_tolerancia jugadoresEscenarioReemplazo
    partidosEscenarioReemplazo "m3" "p12" 2 partidoEscenarioReemplazo
    (by decide) (by decide) (by decide) (by decide)
  refine ⟨(h1.2 (by decide)).2 (by decide), ?_, ?_⟩
  · exact (((h2.2 (by decide)).1 rfl).2
      { id := "q1", nombre := "Q1", categoria := 6, subnivel := "base", nivelNumerico := 523,
        telefono := "5491100000001", disponible := true } [] (by decide)).1
  · exact (((h2.2 (by decide)).1 rfl).2
      { id := "q1", nombre := "Q1", categoria := 6, subnivel := "base", nivelNumerico := 523,
        telefono := "5491100000001", disponible := true } [] (by decide)).2

/-- Claim C2: for every existing match not in a terminal state, calling
the resolver with an attempt number strictly greater than the configured
maximum (`maxIntentosReemplazo = 3`) returns `partido_cancelado` (with
`success = false`), regardless of how many compatible candidates are
available in the player pool. -/
theorem simularBuscarReemplazo_tope_intentos
    (players : List Player) (MATCHES : List Match)
    (matchId jugadorReemplazadoId : String) (intento : Nat) (partido : Match)
    (hpartido : getMatchById MATCHES matchId = some partido)
    (hestado : ¬ (partido.estado = MatchStatus.canceled ∨ partido.estado = MatchStatus.completed))
    (hcap : maxIntentosReemplazo < intento) :
    (simularBuscarReemplazo players MATCHES matchId jugadorReemplazadoId intento).accion =
      ReplacementAccion.partido_cancelado ∧
    (simularBuscarReemplazo players MATCHES matchId jugadorReemplazadoId intento).success =
      false := by
  simp [simularBuscarReemplazo, hpartido, buscarReemplazoConPartido, hestado, hcap]

/-- Witness for C2: even with a compatible candidate available (the
extended-tolerance pool is non-empty), attempt 4 yields
`partido_cancelado`. -/
theorem simularBuscarReemplazo_tope_intentos_witness :
    buscarCandidatos jugadoresEscenarioReemplazo partidoEscenarioReemplazo "p12" true ≠ [] ∧
    (simularBuscarReemplazo jugadoresEscenarioReemplazo partidosEscenarioReemplazo
        "m3" "p12" 4).accion = ReplacementAccion.partido_cancelado := by
  refine ⟨by decide, ?_⟩
  exact (simularBuscarReemplazo_tope_intentos jugadoresEscenarioReemplazo
    partidosEscenarioReemplazo "m3" "p12" 4 partidoEscenarioReemplazo
    (by decide) (by decide) (by decide)).1

/-- Claim C3: a departure is last-minute iff the match's scheduled time
minus the (mock) current time is at least zero and at most the
configured window (`horasUltimoMomento = 2` hours, i.e. 7200000 ms),
both boundaries inclusive; the exact boundary is last-minute, any
scheduled time beyond it is not, and a match scheduled in the past is
never last-minute. -/
theorem verificarUltimoMomento_ventana (horarioPartido : Int) :
    (verificarUltimoMomento horarioPartido = true ↔
      (0 ≤ horarioPartido - ahoraMockCancelacion ∧
        ((horarioPartido - ahoraMockCancelacion : Int) : ℚ) ≤
          horasUltimoMomento * (1000 * 60 * 60))) ∧
    verificarUltimoMomento (ahoraMockCancelacion + 7200000) = true ∧
    (∀ t : Int, t < ahoraMockCancelacion → verificarUltimoMomento t = false) ∧
    (∀ t : Int, ahoraMockCancelacion + 7200000 < t → verificarUltimoMomento t = false) := by
  have hc : (0 : ℚ) < 1000 * 60 * 60 := by norm_num
  have base : ∀ t : Int, (verificarUltimoMomento t = true ↔
      (0 ≤ t - ahoraMockCancelacion ∧
        ((t - ahoraMockCancelacion : Int) : ℚ) ≤ horasUltimoMomento * (1000 * 60 * 60))) := by
    intro t
    unfold verificarUltimoMomento
    rw [decide_eq_true_iff]
    constructor
    · rintro ⟨hnn, hle⟩
      refine ⟨?_, ?_⟩
      · have := (le_div_iff₀ hc).mp hnn
        rw [zero_mul] at this
        exact_mod_cast this
      · exact (div_le_iff₀ hc).mp hle
    · rintro ⟨hnn, hle⟩
      refine ⟨?_, ?_⟩
      · rw [le_div_iff₀ hc, zero_mul]
        exact_mod_cast hnn
      · rw [div_le_iff₀ hc]
        exact hle
  refine ⟨base _, ?_, ?_, ?_⟩
  · rw [base]
    constructor
    · omega
    · push_cast
      rw [horasUltimoMomento]
      ring_nf
      norm_num
  · intro t ht
    rw [Bool.eq_false_iff]
    intro hcontra
    have := ((base t).mp hcontra).1
    omega
  · intro t ht
    rw [Bool.eq_false_iff]
    intro hcontra
    have h2 := ((base t).mp hcontra).2
    rw [horasUltimoMomento] at h2
    norm_num at h2
    have hle : t ≤ 7200000 + ahoraMockCancelacion := by exact_mod_cast h2
    omega

/-- Claim C4: running the periodic confirmation scan a second time with
the same "current time", immediately after a first run and with no other
intervening operation, is a no-op: the match/notification state is
unchanged, no match is confirmed or cancelled, no timeout is detected,
no replacement attempt is started and no notification is sent — every
second-run per-match result is `sin_cambios` (or `error` for a match
that was already malformed). -/
theorem ejecutarCheckConfirmaciones_idempotente (players : List Player)
    (MATCHES : List Match) (ahora : Int) :
    (ejecutarCheckConfirmaciones players
        (ejecutarCheckConfirmaciones players MATCHES ahora).1 ahora).1 =
      (ejecutarCheckConfirmaciones players MATCHES ahora).1 ∧
    (ejecutarCheckConfirmaciones players
        (ejecutarCheckConfirmaciones players MATCHES ahora).1 ahora).2.partidosConfirmados = 0 ∧
    (ejecutarCheckConfirmaciones players
        (ejecutarCheckConfirmaciones players MATCHES ahora).1 ahora).2.partidosCancelados = 0 ∧
    (ejecutarCheckConfirmaciones players
        (ejecutarCheckConfirmaciones players MATCHES ahora).1 ahora).2.timeoutsDetectados = 0 ∧
    (ejecutarCheckConfirmaciones players
        (ejecutarCheckConfirmaciones players MATCHES ahora).1 ahora).2.reemplazosIniciados = 0 ∧
    (ejecutarCheckConfirmaciones players
        (ejecutarCheckConfirmaciones players MATCHES ahora).1 ahora).2.mensajesEnviados = 0 ∧
    (∀ r ∈ (ejecutarCheckConfirmaciones players
        (ejecutarCheckConfirmaciones players MATCHES ahora).1 ahora).2.resultados,
      r.accion = CheckAccion.sin_cambios ∨ r.accion = CheckAccion.error) := by
  have key : ∀ m ∈ (ejecutarCheckConfirmaciones players MATCHES ahora).1,
      m.estado = MatchStatus.notified →
      (procesarPartido players m ahora).1 = m ∧
      ((procesarPartido players m ahora).2.accion = CheckAccion.sin_cambios ∨
        (procesarPartido players m ahora).2.accion = CheckAccion.error) ∧
      (procesarPartido players m ahora).2.timeouts = 0 ∧
      (procesarPartido players m ahora).2.mensajesEnviados = 0 := by
    intro m hm hnot
    have hrep : (ejecutarCheckConfirmaciones players MATCHES ahora).1 =
        MATCHES.map (fun m =>
          if m.estado = MatchStatus.notified then (procesarPartido players m ahora).1 else m) :=
      rfl
    rw [hrep] at hm
    rcases List.mem_map.mp hm with ⟨m0, hm0, heq⟩
    by_cases h0 : m0.estado = MatchStatus.notified
    · rw [if_pos h0] at heq
      rw [← heq] at hnot ⊢
      exact procesarPartido_segunda_pasada players m0 ahora hnot
    · rw [if_neg h0] at heq
      rw [← heq] at hnot
      exact absurd hnot h0
  have hresult : ∀ r ∈ (ejecutarCheckConfirmaciones players
      (ejecutarCheckConfirmaciones players MATCHES ahora).1 ahora).2.resultados,
      (r.accion = CheckAccion.sin_cambios ∨ r.accion = CheckAccion.error) ∧
      r.timeouts = 0 ∧ r.mensajesEnviados = 0 := by
    intro r hr
    have hrep : (ejecutarCheckConfirmaciones players
        (ejecutarCheckConfirmaciones players MATCHES ahora).1 ahora).2.resultados =
        (getNotifiedMatches (ejecutarCheckConfirmaciones players MATCHES ahora).1).map
          (fun m => (procesarPartido players m ahora).2) := rfl
    rw [hrep] at hr
    rcases List.mem_map.mp hr with ⟨m, hm, heq⟩
    have hmem := List.mem_filter.mp hm
    have hnot : m.estado = MatchStatus.notified := of_decide_eq_true hmem.2
    have hk := key m hmem.1 hnot
    rw [← heq]
    exact ⟨hk.2.1, hk.2.2.1, hk.2.2.2⟩
  refine ⟨?_, ?_, ?_, ?_, ?_, ?_, fun r hr => (hresult r hr).1⟩
  · have hrep : (ejecutarCheckConfirmaciones players
        (ejecutarCheckConfirmaciones players MATCHES ahora).1 ahora).1 =
        ((ejecutarCheckConfirmaciones players MATCHES ahora).1).map (fun m =>
          if m.estado = MatchStatus.notified then (procesarPartido players m ahora).1 else m) :=
      rfl
    rw [hrep]
    have hcongr : ∀ m ∈ (ejecutarCheckConfirmaciones players MATCHES ahora).1,
        (fun m =>
          if m.estado = MatchStatus.notified then (procesarPartido players m ahora).1 else m) m =
          id m := by
      intro m hm
      by_cases hn : m.estado = MatchStatus.notified
      · simp only [if_pos hn, id]
        exact (key m hm hn).1
      · simp only [if_neg hn, id]
    rw [List.map_congr_left hcongr, List.map_id]
  · rw [show (ejecutarCheckConfirmaciones players
        (ejecutarCheckConfirmaciones players MATCHES ahora).1 ahora).2.partidosConfirmados =
        ((ejecutarCheckConfirmaciones players
          (ejecutarCheckConfirmaciones players MATCHES ahora).1 ahora).2.resultados).countP
          (fun r => decide (r.accion = CheckAccion.partido_confirmado)) from rfl]
    rw [List.countP_eq_zero]
    intro r hr
    rcases (hresult r hr).1 with h | h <;> simp [h]
  · rw [show (ejecutarCheckConfirmaciones players
        (ejecutarCheckConfirmaciones players MATCHES ahora).1 ahora).2.partidosCancelados =
        ((ejecutarCheckConfirmaciones players
          (ejecutarCheckConfirmaciones players MATCHES ahora).1 ahora).2.resultados).countP
          (fun r => decide (r.accion = CheckAccion.partido_cancelado)) from rfl]
    rw [List.countP_eq_zero]
    intro r hr
    rcases (hresult r hr).1 with h | h <;> simp [h]
  · rw [show (ejecutarCheckConfirmaciones players
        (ejecutarCheckConfirmaciones players MATCHES ahora).1 ahora).2.timeoutsDetectados =
        (((ejecutarCheckConfirmaciones players
          (ejecutarCheckConfirmaciones players MATCHES ahora).1 ahora).2.resultados).map
          (fun r => if r.accion = CheckAccion.timeout_procesado ∨
              r.accion = CheckAccion.reemplazo_iniciado then r.timeouts else 0)).sum from rfl]
    apply suma_lista_cero
    intro x hx
    rcases List.mem_map.mp hx with ⟨r, hr, heq⟩
    rw [← heq]
    rcases (hresult r hr).1 with h | h <;> simp [h, (hresult r hr).2.1]
  · rw [show (ejecutarCheckConfirmaciones players
        (ejecutarCheckConfirmaciones players MATCHES ahora).1 ahora).2.reemplazosIniciados =
        ((ejecutarCheckConfirmaciones players
          (ejecutarCheckConfirmaciones players MATCHES ahora).1 ahora).2.resultados).countP
          (fun r => decide (r.accion = CheckAccion.reemplazo_iniciado)) from rfl]
    rw [List.countP_eq_zero]
    intro r hr
    rcases (hresult r hr).1 with h | h <;> simp [h]
  · rw [show (ejecutarCheckConfirmaciones players
        (ejecutarCheckConfirmaciones players MATCHES ahora).1 ahora).2.mensajesEnviados =
        (((ejecutarCheckConfirmaciones players
          (ejecutarCheckConfirmaciones players MATCHES ahora).1 ahora).2.resultados).map
          PartidoCheckResult.mensajesEnviados).sum from rfl]
    apply suma_lista_cero
    intro x hx
    rcases List.mem_map.mp hx with ⟨r, hr, heq⟩
    rw [← heq]
    exact (hresult r hr).2.2

/-- Counterexample for C5 as stated: on an input list carrying two
entries with the same player id, the groups together with the `sinGrupo`
leftovers are not a permutation of the input (one duplicate entry is
dropped: it is neither grouped nor reported as leftover). -/
theorem contraejemplo_particion_agrupamiento :
    ¬ (((agruparJugadoresPorNivel jugadoresConIdDuplicado).grupos.flatten ++
        (agruparJugadoresPorNivel jugadoresConIdDuplicado).sinGrupo).Perm
      jugadoresConIdDuplicado) := by decide

/-- Amended C5: on an input whose player ids are pairwise distinct, the
grouping pass returns groups of exactly 4 pairwise-distinct players, no
player belongs to two groups, and groups plus leftovers partition the
input. -/
theorem agruparJugadoresPorNivel_particion (jugadores : List Player)
    (hids : (jugadores.map Player.id).Nodup) :
    (∀ g ∈ (agruparJugadoresPorNivel jugadores).grupos,
        g.length = 4 ∧ (g.map Player.id).Nodup) ∧
    ((agruparJugadoresPorNivel jugadores).grupos.flatten.map Player.id).Nodup ∧
    ((agruparJugadoresPorNivel jugadores).grupos.flatten ++
        (agruparJugadoresPorNivel jugadores).sinGrupo).Perm jugadores := by
  have hpoolperm : (sortBy nivelLe jugadores).Perm jugadores := sortBy_perm _ _
  have hpool : ((sortBy nivelLe jugadores).map Player.id).Nodup :=
    ((hpoolperm.map Player.id).nodup_iff).mpr hids
  rcases agruparLoop_spec (sortBy nivelLe jugadores) hpool (sortBy nivelLe jugadores) []
      (fun a ha => ha) List.nodup_nil with ⟨h1, h2, h3, h4, h5⟩
  rw [List.nil_append] at h1
  rw [h1] at h2
  have hgrupos : (agruparJugadoresPorNivel jugadores).grupos =
      (agruparLoop (sortBy nivelLe jugadores) (sortBy nivelLe jugadores) []).1 := rfl
  have hsin : (agruparJugadoresPorNivel jugadores).sinGrupo =
      (sortBy nivelLe jugadores).filter (fun p =>
        !((agruparLoop (sortBy nivelLe jugadores) (sortBy nivelLe jugadores) []).2.2.contains
          p.id)) := rfl
  refine ⟨?_, ?_, ?_⟩
  · intro g hg
    rw [hgrupos] at hg
    refine ⟨h3 g hg, ?_⟩
    have hsubl : List.Sublist (g.map Player.id)
        ((agruparLoop (sortBy nivelLe jugadores) (sortBy nivelLe jugadores) []).1.flatten.map
          Player.id) := by
      rw [List.map_flatten]
      exact List.sublist_flatten_of_mem (List.mem_map_of_mem (List.map Player.id) hg)
    exact List.Nodup.sublist hsubl h2
  · rw [hgrupos]
    exact h2
  · rw [hgrupos, hsin, h1]
    have hSsub : ∀ p ∈ (agruparLoop (sortBy nivelLe jugadores)
        (sortBy nivelLe jugadores) []).1.flatten, p ∈ sortBy nivelLe jugadores := by
      intro p hp
      rcases List.mem_flatten.mp hp with ⟨g, hg, hpg⟩
      exact h4 g hg p hpg
    have hpermS := filter_ids_perm hpool hSsub h2
    exact ((List.Perm.append hpermS.symm (List.Perm.refl _)).trans
      (List.filter_append_perm _ (sortBy nivelLe jugadores))).trans hpoolperm

/-- Witness for C5 (amended): on five distinct players the pass forms
one group of 4 distinct members and the partition property holds. -/
theorem agruparJugadoresPorNivel_particion_witness :
    (∀ g ∈ (agruparJugadoresPorNivel jugadoresEscenarioParticion).grupos,
        g.length = 4 ∧ (g.map Player.id).Nodup) ∧
    ((agruparJugadoresPorNivel jugadoresEscenarioParticion).grupos.flatten.map
        Player.id).Nodup ∧
    ((agruparJugadoresPorNivel jugadoresEscenarioParticion).grupos.flatten ++
        (agruparJugadoresPorNivel jugadoresEscenarioParticion).sinGrupo).Perm
      jugadoresEscenarioParticion :=
  agruparJugadoresPorNivel_particion jugadoresEscenarioParticion (by decide)

/-- Counterexample for C6 as stated: the anchor of level 1.00 is
skipped (fewer than 3 candidates within extended tolerance at its scan),
yet it is later recruited into the next anchor's group and is not in the
leftover set. -/
theorem contraejemplo_ancla_descartada :
    anclaDescartadaEjemplo ∈
      (agruparJugadoresPorNivel jugadoresAnclaDescartada).descartadosComoAncla ∧
    anclaDescartadaEjemplo ∉ (agruparJugadoresPorNivel jugadoresAnclaDescartada).sinGrupo ∧
    (∃ g ∈ (agruparJugadoresPorNivel jugadoresAnclaDescartada).grupos,
      anclaDescartadaEjemplo ∈ g) := by decide

/-- Amended C6: a skipped anchor ends in the leftover set exactly when no
later-formed group recruited it as a candidate. -/
theorem agruparJugadoresPorNivel_descartados (jugadores : List Player)
    (hids : (jugadores.map Player.id).Nodup) :
    ∀ p ∈ (agruparJugadoresPorNivel jugadores).descartadosComoAncla,
      (p ∈ (agruparJugadoresPorNivel jugadores).sinGrupo ↔
        p ∉ (agruparJugadoresPorNivel jugadores).grupos.flatten) := by
  have hpoolperm : (sortBy nivelLe jugadores).Perm jugadores := sortBy_perm _ _
  have hpool : ((sortBy nivelLe jugadores).map Player.id).Nodup :=
    ((hpoolperm.map Player.id).nodup_iff).mpr hids
  rcases agruparLoop_spec (sortBy nivelLe jugadores) hpool (sortBy nivelLe jugadores) []
      (fun a ha => ha) List.nodup_nil with ⟨h1, h2, h3, h4, h5⟩
  rw [List.nil_append] at h1
  intro p hp
  have hppool : p ∈ sortBy nivelLe jugadores := h5 p hp
  have hsin : (agruparJugadoresPorNivel jugadores).sinGrupo =
      (sortBy nivelLe jugadores).filter (fun p =>
        !((agruparLoop (sortBy nivelLe jugadores) (sortBy nivelLe jugadores) []).2.2.contains
          p.id)) := rfl
  have hid_iff := mem_flatten_iff_id hpool (fun g hg q hq => h4 g hg q hq) hppool
  rw [hsin]
  constructor
  · intro hmem hflat
    have hm := List.mem_filter.mp hmem
    have : p.id ∉ (agruparLoop (sortBy nivelLe jugadores)
        (sortBy nivelLe jugadores) []).2.2 := by
      simpa using hm.2
    rw [h1] at this
    exact this (hid_iff.mp hflat)
  · intro hflat
    refine List.mem_filter.mpr ⟨hppool, ?_⟩
    have : p.id ∉ (agruparLoop (sortBy nivelLe jugadores)
        (sortBy nivelLe jugadores) []).2.2 := by
      rw [h1]
      intro hmem
      exact hflat (hid_iff.mpr hmem)
    simpa using this

/-- Witness for C6 (amended): the skipped anchor of the counterexample
data satisfies the leftover-iff-ungrouped equivalence. -/
theorem agruparJugadoresPorNivel_descartados_witness :
    anclaDescartadaEjemplo ∈
      (agruparJugadoresPorNivel jugadoresAnclaDescartada).descartadosComoAncla ∧
    (anclaDescartadaEjemplo ∈ (agruparJugadoresPorNivel jugadoresAnclaDescartada).sinGrupo ↔
      anclaDescartadaEjemplo ∉
        (agruparJugadoresPorNivel jugadoresAnclaDescartada).grupos.flatten) :=
  ⟨by decide,
    agruparJugadoresPorNivel_descartados jugadoresAnclaDescartada (by decide)
      anclaDescartadaEjemplo (by decide)⟩

/-- Claim C7: for every group of 4 players whose level-ascending order
is `[w, x, y, z]`, `balancearGrupo` returns the reordering
`[w, y, x, z]` — so partnership slots (0,3) and (1,2) each pair one
lower- and one higher-level player (`w ≤ x ≤ y ≤ z`) — and the returned
list is a permutation of the input group. -/
theorem balancearGrupo_reordena (grupo : List Player) (w x y z : Player)
    (hsorted : sortBy nivelLe grupo = [w, x, y, z]) :
    balancearGrupo grupo = [w, y, x, z] ∧
    (balancearGrupo grupo).Perm grupo ∧
    (w.nivelNumerico ≤ x.nivelNumerico ∧ x.nivelNumerico ≤ y.nivelNumerico ∧
      y.nivelNumerico ≤ z.nivelNumerico) := by
  have hperm := sortBy_perm nivelLe grupo
  rw [hsorted] at hperm
  have hpair := sortBy_pairwise_nivel grupo
  rw [hsorted] at hpair
  have heq : balancearGrupo grupo = [w, y, x, z] := by
    unfold balancearGrupo
    rw [hsorted]
  refine ⟨heq, ?_, ?_, ?_, ?_⟩
  · rw [heq]
    exact ((List.Perm.cons w (List.Perm.swap x y [z]))).trans hperm
  · exact List.rel_of_pairwise_cons hpair (by simp)
  · exact List.rel_of_pairwise_cons (List.pairwise_cons.mp hpair).2 (by simp)
  · exact List.rel_of_pairwise_cons
      (List.pairwise_cons.mp (List.pairwise_cons.mp hpair).2).2 (by simp)

/-- Witness for C7: the README's example group with levels
4.1 / 5.4 / 5.3 / 4.8 is reordered to 4.1 / 5.3 / 4.8 / 5.4. -/
theorem balancearGrupo_reordena_witness :
    (balancearGrupo grupoEjemploBalanceo).map Player.nivelNumerico = [410, 530, 480, 540] ∧
    (balancearGrupo grupoEjemploBalanceo).Perm grupoEjemploBalanceo := by
  have h := balancearGrupo_reordena grupoEjemploBalanceo
    { id := "b1", nombre := "B1", categoria := 5, subnivel := "base", nivelNumerico := 410,
      telefono := "1", disponible := true }
    { id := "b4", nombre := "B4", categoria := 5, subnivel := "base", nivelNumerico := 480,
      telefono := "4", disponible := true }
    { id := "b3", nombre := "B3", categoria := 5, subnivel := "base", nivelNumerico := 530,
      telefono := "3", disponible := true }
    { id := "b2", nombre := "B2", categoria := 5, subnivel := "base", nivelNumerico := 540,
      telefono := "2", disponible := true }
    (by decide)
  refine ⟨?_, h.2.1⟩
  rw [h.1]
  decide

/-- Counterexample for C8 as stated: `simularCancelarPartidoAutomatico`
performs no terminal-state check, so on a match already `canceled` it
returns `success = true` rather than an error outcome. -/
theorem contraejemplo_cancelacion_automatica :
    partidoCanceladoEjemplo.estado = MatchStatus.canceled ∧
    getMatchById [partidoCanceladoEjemplo] "m4" = some partidoCanceladoEjemplo ∧
    (simularCancelarPartidoAutomatico [partidoCanceladoEjemplo] "m4"
      CancellationReason.sin_confirmaciones).success = true := by
  refine ⟨rfl, by decide, by decide⟩

/-- Claim C8 (amended): on a match already in a terminal state the
player-initiated entry point `simularCancelarJugador` returns an error
outcome (`success = false`), but the system-initiated entry point
`simularCancelarPartidoAutomatico` performs no terminal-state check and
returns `success = true` with the given reason.  (The mock mutates no
state in either case.)  The amendment is forced by the missing
terminal-state guard exhibited at a concrete canceled match. -/
theorem cancelacion_estado_terminal
    (players : List Player) (MATCHES : List Match) (telefonoJugador matchId : String)
    (jugador : Player) (partido : Match) (motivo : CancellationReason)
    (hjugador : getPlayerByPhone players telefonoJugador = some jugador)
    (hpartido : getMatchById MATCHES matchId = some partido)
    (hterminal : partido.estado = MatchStatus.canceled ∨ partido.estado = MatchStatus.completed) :
    (simularCancelarJugador players MATCHES telefonoJugador (some matchId)).success = false ∧
    (simularCancelarJugador players MATCHES telefonoJugador (some matchId)).tipoMotivo =
      TipoMotivo.error ∧
    (simularCancelarPartidoAutomatico MATCHES matchId motivo).success = true ∧
    (simularCancelarPartidoAutomatico MATCHES matchId motivo).tipoMotivo =
      TipoMotivo.motivo motivo := by
  refine ⟨?_, ?_, ?_, ?_⟩ <;>
    simp [simularCancelarJugador, simularCancelarPartidoAutomatico, hjugador, hpartido, hterminal]

/-- Witness for C8 (amended): concrete canceled match — the player
entry point fails, the automatic entry point succeeds. -/
theorem cancelacion_estado_terminal_witness :
    (simularCancelarJugador [jugadorEscenarioCancelacion] [partidoCanceladoEjemplo]
      "5491144556677" (some "m4")).success = false ∧
    (simularCancelarPartidoAutomatico [partidoCanceladoEjemplo] "m4"
      CancellationReason.jugador_cancela).success = true := by
  have h := cancelacion_estado_terminal [jugadorEscenarioCancelacion] [partidoCanceladoEjemplo]
    "5491144556677" "m4" jugadorEscenarioCancelacion partidoCanceladoEjemplo
    CancellationReason.jugador_cancela (by decide) (by decide) (Or.inl rfl)
  exact ⟨h.1, h.2.2.1⟩

/-- Claim C9: for a player-initiated departure on an existing
non-terminal match the player belongs to, `requiereReemplazo` is true
exactly when the remaining player count (`jugadores.length - 1`) is at
least `jugadoresMinimosParaCrear = 1` — i.e. exactly when the match had
at least 2 players. -/
theorem simularCancelarJugador_requiere_reemplazo
    (players : List Player) (MATCHES : List Match) (telefonoJugador matchId : String)
    (jugador : Player) (partido : Match)
    (hjugador : getPlayerByPhone players telefonoJugador = some jugador)
    (hpartido : getMatchById MATCHES matchId = some partido)
    (_hmiembro : jugador.id ∈ partido.jugadores)
    (hestado : ¬ (partido.estado = MatchStatus.canceled ∨ partido.estado = MatchStatus.completed)) :
    ((simularCancelarJugador players MATCHES telefonoJugador
        (some matchId)).requiereReemplazo = true ↔
      jugadoresMinimosParaCrear ≤ (partido.jugadores.length : Int) - 1) ∧
    ((simularCancelarJugador players MATCHES telefonoJugador
        (some matchId)).requiereReemplazo = true ↔
      2 ≤ partido.jugadores.length) := by
  have hbase : (simularCancelarJugador players MATCHES telefonoJugador
      (some matchId)).requiereReemplazo =
      decide (jugadoresMinimosParaCrear ≤ (partido.jugadores.length : Int) - 1) := by
    simp [simularCancelarJugador, hjugador, hpartido, hestado]
  constructor
  · rw [hbase, decide_eq_true_iff]
  · rw [hbase, decide_eq_true_iff, jugadoresMinimosParaCrear]
    omega

/-- Witness for C9: a two-member match is marked
replacement-recoverable when one member cancels. -/
theorem simularCancelarJugador_requiere_reemplazo_witness :
    (simularCancelarJugador [jugadorEscenarioCancelacion] [partidoEscenarioCancelacion]
      "5491144556677" (some "m2")).requiereReemplazo = true := by
  have h := simularCancelarJugador_requiere_reemplazo [jugadorEscenarioCancelacion]
    [partidoEscenarioCancelacion] "5491144556677" "m2"
    jugadorEscenarioCancelacion partidoEscenarioCancelacion
    (by decide) (by decide) (by decide) (by decide)
  exact h.2.mpr (by decide)

/-- Claim C10: in `simularConfirmarAsistencia` the already-confirmed
check precedes response processing, so a member already in `confirmados`
of an existing non-terminal match receives `success = true` with accion
`ya_confirmado` for every response value — including "NO" and
"TIMEOUT" — and can never decline or be timed out through this
operation. -/
theorem simularConfirmarAsistencia_ya_confirmado
    (players : List Player) (MATCHES : List Match) (telefonoJugador matchId : String)
    (jugador : Player) (partido : Match) (respuesta : ConfirmationResponse)
    (hjugador : getPlayerByPhone players telefonoJugador = some jugador)
    (hpartido : getMatchById MATCHES matchId = some partido)
    (hmiembro : jugador.id ∈ partido.jugadores)
    (hestado : ¬ (partido.estado = MatchStatus.canceled ∨ partido.estado = MatchStatus.completed))
    (hconfirmado : jugador.id ∈ partido.confirmados) :
    (simularConfirmarAsistencia players MATCHES telefonoJugador matchId respuesta).success =
      true ∧
    (simularConfirmarAsistencia players MATCHES telefonoJugador matchId respuesta).accion =
      ConfirmationAccion.ya_confirmado := by
  constructor <;>
    simp [simularConfirmarAsistencia, hjugador, hpartido, hmiembro, hestado, hconfirmado]

/-- Witness for C10: an already-confirmed member answering "NO" or
timing out still gets `ya_confirmado`. -/
theorem simularConfirmarAsistencia_ya_confirmado_witness :
    (simularConfirmarAsistencia [jugadorYaConfirmado] [partidoYaConfirmado]
      "5491177889900" "m1" ConfirmationResponse.NO).accion =
      ConfirmationAccion.ya_confirmado ∧
    (simularConfirmarAsistencia [jugadorYaConfirmado] [partidoYaConfirmado]
      "5491177889900" "m1" ConfirmationResponse.TIMEOUT).accion =
      ConfirmationAccion.ya_confirmado ∧
    (simularConfirmarAsistencia [jugadorYaConfirmado] [partidoYaConfirmado]
      "5491177889900" "m1" ConfirmationResponse.TIMEOUT).success = true := by
  have hNO := simularConfirmarAsistencia_ya_confirmado [jugadorYaConfirmado]
    [partidoYaConfirmado] "5491177889900" "m1" jugadorYaConfirmado partidoYaConfirmado
    ConfirmationResponse.NO (by decide) (by decide) (by decide) (by decide) (by decide)
  have hTO := simularConfirmarAsistencia_ya_confirmado [jugadorYaConfirmado]
    [partidoYaConfirmado] "5491177889900" "m1" jugadorYaConfirmado partidoYaConfirmado
    ConfirmationResponse.TIMEOUT (by decide) (by decide) (by decide) (by decide) (by decide)
  exact ⟨hNO.2, hTO.2, hTO.1⟩

end BluePadel
